import Mathlib

/-!
Verification of the ComplianceNavigator resilience layer

Shallow embedding of the external-call protection layer of the repository:
the token-bucket / sliding-window rate limiter and the circuit breaker
(`src/utils/rate_limiter.py`), the two-tier TTL cache (`src/utils/cache.py`),
and the rate-limit / error-handling paths of the Gemini wrapper
(`src/integrations/gemini_client.py`).

Python floats (timestamps, retry delays) are modelled as rationals `ℚ`;
Python ints (token counts, costs, thresholds) as `ℤ` or `ℕ`.
-/

namespace ComplianceNav

/-! ## Rate limiter (`src/utils/rate_limiter.py`, class `RateLimiter`) -/

/-- Python `int(q)` applied to a float: truncation toward zero
(`Int.tdiv` of the reduced numerator by the denominator). -/
def pyInt (q : ℚ) : ℤ := q.num.tdiv q.den

theorem pyInt_eq_floor {q : ℚ} (hq : 0 ≤ q) : pyInt q = ⌊q⌋ := by
  rw [pyInt, Rat.floor_def, Int.tdiv_eq_ediv (Rat.num_nonneg.mpr hq) (by positivity)]

theorem pyInt_nonneg {q : ℚ} (hq : 0 ≤ q) : 0 ≤ pyInt q :=
  Int.tdiv_nonneg (Rat.num_nonneg.mpr hq) (by positivity)

/-- Python `min(lst)` on a list of floats (the source only reaches it on
nonempty lists; the `[]` default is never observable there). -/
def pyMin : List ℚ → ℚ
  | [] => 0
  | h :: t => t.foldl min h

/-- `RateLimitConfig` dataclass. -/
structure RateLimitConfig where
  requests_per_minute : ℤ
  requests_per_hour : ℤ
  burst_allowance : ℤ
  cooldown_seconds : ℤ
deriving DecidableEq, Repr

/-- Mutable fields of a `RateLimiter` instance. -/
structure RateLimiterState where
  tokens : ℤ
  last_refill : ℚ
  minute_requests : List ℚ
  hour_requests : List ℚ
deriving DecidableEq, Repr

namespace RateLimiter

/-- `RateLimiter.__init__`: `now` is the `time.time()` at construction. -/
def init (config : RateLimitConfig) (now : ℚ) : RateLimiterState :=
  { tokens := config.burst_allowance
    last_refill := now
    minute_requests := []
    hour_requests := [] }

/-- `RateLimiter._cleanup_old_requests`. -/
def cleanup_old_requests (st : RateLimiterState) (now : ℚ) : RateLimiterState :=
  { st with
    minute_requests := st.minute_requests.filter (fun t => decide (now - 60 < t))
    hour_requests := st.hour_requests.filter (fun t => decide (now - 3600 < t)) }

/-- `RateLimiter._refill_tokens`: note the `int(...)` truncation of
`time_passed * requests_per_minute / 60` and the unconditional
`last_refill = now`. -/
def refill_tokens (config : RateLimitConfig) (st : RateLimiterState) (now : ℚ) :
    RateLimiterState :=
  let time_passed := now - st.last_refill
  let tokens_to_add := pyInt (time_passed * (config.requests_per_minute : ℚ) / 60)
  { st with
    tokens := min config.burst_allowance (st.tokens + tokens_to_add)
    last_refill := now }

/-- Denial reasons of `RateLimiter.is_allowed` (the `info['reason']` values). -/
inductive DenyReason
  | minute_limit
  | hour_limit
  | burst_limit
deriving DecidableEq, Repr

/-- Result of `RateLimiter.is_allowed`: the `(bool, info)` pair, with the
info fields each branch actually populates. -/
inductive AllowResult
  | denied (reason : DenyReason) (retry_after : ℚ)
  | allowed (remaining_minute remaining_hour tokens_available : ℤ)
deriving DecidableEq, Repr

/-- `RateLimiter.is_allowed` as a state transformer: `now` is the
`time.time()` read at entry; returns the decision and the new state. -/
def is_allowed (config : RateLimitConfig) (st : RateLimiterState) (now : ℚ)
    (cost : ℤ) : AllowResult × RateLimiterState :=
  let st1 := cleanup_old_requests st now
  if config.requests_per_minute ≤ (st1.minute_requests.length : ℤ) then
    (.denied .minute_limit (60 - (now - pyMin st1.minute_requests)), st1)
  else if config.requests_per_hour ≤ (st1.hour_requests.length : ℤ) then
    (.denied .hour_limit (3600 - (now - pyMin st1.hour_requests)), st1)
  else
    let st2 := refill_tokens config st1 now
    if st2.tokens < cost then
      (.denied .burst_limit (config.cooldown_seconds : ℚ), st2)
    else
      let st3 : RateLimiterState :=
        { st2 with
          tokens := st2.tokens - cost
          minute_requests := st2.minute_requests ++ [now]
          hour_requests := st2.hour_requests ++ [now] }
      (.allowed ((config.requests_per_minute : ℤ) - st3.minute_requests.length)
                ((config.requests_per_hour : ℤ) - st3.hour_requests.length)
                st3.tokens,
       st3)

/-- Folding a sequence of `is_allowed` calls (time, cost) over a state. -/
def run_calls (config : RateLimitConfig) (st : RateLimiterState) :
    List (ℚ × ℤ) → RateLimiterState
  | [] => st
  | (now, cost) :: rest => run_calls config (is_allowed config st now cost).2 rest

/-- Well-formed call sequence starting no earlier than `t`: call times are
nondecreasing and costs are non-negative. -/
def calls_ok : ℚ → List (ℚ × ℤ) → Prop
  | _, [] => True
  | t, (now, cost) :: rest => t ≤ now ∧ 0 ≤ cost ∧ calls_ok now rest

instance calls_ok_decidable : ∀ (t : ℚ) (l : List (ℚ × ℤ)), Decidable (calls_ok t l)
  | _, [] => .isTrue trivial
  | t, (now, cost) :: rest =>
    have : Decidable (calls_ok now rest) := calls_ok_decidable now rest
    inferInstanceAs (Decidable (t ≤ now ∧ 0 ≤ cost ∧ calls_ok now rest))

/-- Both sliding-window checks of `is_allowed` pass at `now`. -/
def windows_pass (config : RateLimitConfig) (st : RateLimiterState) (now : ℚ) : Prop :=
  ((cleanup_old_requests st now).minute_requests.length : ℤ) < config.requests_per_minute ∧
  ((cleanup_old_requests st now).hour_requests.length : ℤ) < config.requests_per_hour

instance (config : RateLimitConfig) (st : RateLimiterState) (now : ℚ) :
    Decidable (windows_pass config st now) :=
  inferInstanceAs (Decidable (_ ∧ _))

/-- The post-refill token count of `_refill_tokens`: the burst cap applied to
the old count plus the `int(...)`-truncated credit. -/
def truncated_refill (config : RateLimitConfig) (st : RateLimiterState) (now : ℚ) : ℤ :=
  min config.burst_allowance
    (st.tokens + pyInt ((now - st.last_refill) * (config.requests_per_minute : ℚ) / 60))

end RateLimiter

/-- Refinement reference for claim C1, written from the spec's words
(`§4.1` step 4): a continuous, fraction-preserving refill
`tokensAvailable = min(burstCapacity, tokensAvailable + elapsed × requestsPerMinute / 60)`
over real-valued tokens. -/
def specContinuousRefill (config : RateLimitConfig) (tokens : ℚ) (elapsed : ℚ) : ℚ :=
  min (config.burst_allowance : ℚ) (tokens + elapsed * (config.requests_per_minute : ℚ) / 60)

/-! ## Circuit breaker (`src/utils/rate_limiter.py`, class `CircuitBreaker`) -/

/-- `CircuitState` enum. -/
inductive CircuitState
  | Closed
  | Open
  | HalfOpen
deriving DecidableEq, Repr

/-- `CircuitBreakerConfig` dataclass (`recovery_timeout` is an `int` in the
source; it is only ever compared against time differences, so it is kept in
`ℚ` here). -/
structure CircuitBreakerConfig where
  failure_threshold : ℕ
  recovery_timeout : ℚ
  half_open_max_calls : ℕ
  success_threshold : ℕ
deriving DecidableEq, Repr

/-- Mutable fields of a `CircuitBreaker` instance. -/
structure BreakerState where
  state : CircuitState
  failure_count : ℕ
  success_count : ℕ
  last_failure_time : Option ℚ
  half_open_calls : ℕ
deriving DecidableEq, Repr

namespace CircuitBreaker

/-- `CircuitBreaker.__init__`. -/
def init : BreakerState :=
  { state := .Closed
    failure_count := 0
    success_count := 0
    last_failure_time := none
    half_open_calls := 0 }

/-- `CircuitBreaker._should_attempt_reset`; Python truthiness
(`if not self.last_failure_time`) makes both a `None` and a `0.0`
`last_failure_time` count as "no failure recorded". -/
def should_attempt_reset (config : CircuitBreakerConfig) (st : BreakerState)
    (now : ℚ) : Bool :=
  match st.last_failure_time with
  | none => true
  | some t => decide (t = 0) || decide (config.recovery_timeout ≤ now - t)

/-- `CircuitBreaker._reset_circuit`. -/
def reset_circuit (st : BreakerState) : BreakerState :=
  { st with state := .Closed, failure_count := 0, success_count := 0, half_open_calls := 0 }

/-- `CircuitBreaker._on_success`. -/
def on_success (config : CircuitBreakerConfig) (st : BreakerState) : BreakerState :=
  match st.state with
  | .HalfOpen =>
    let st1 := { st with success_count := st.success_count + 1 }
    if config.success_threshold ≤ st1.success_count then reset_circuit st1 else st1
  | .Closed => { st with failure_count := 0 }
  | .Open => st

/-- `CircuitBreaker._on_failure`: `now` is the `time.time()` read when the
failure is recorded. -/
def on_failure (config : CircuitBreakerConfig) (st : BreakerState) (now : ℚ) :
    BreakerState :=
  let st1 := { st with
    failure_count := st.failure_count + 1
    last_failure_time := some now }
  if config.failure_threshold ≤ st1.failure_count then { st1 with state := .Open } else st1

/-- Behaviour of the wrapped action `func`: a returned value or a raised
exception. -/
inductive ActionOutcome (ε α : Type)
  | ok (a : α)
  | err (e : ε)
deriving DecidableEq, Repr

/-- Observable outcome of `CircuitBreaker.call`: a `CircuitBreakerOpenError`
raised by the breaker itself, the action's own exception re-raised after
bookkeeping, or the action's return value. -/
inductive CallResult (ε α : Type)
  | circuit_open_error
  | raised (e : ε)
  | returned (a : α)
deriving DecidableEq, Repr

/-- The `try/except` at the bottom of `call`: run the action, apply
`_on_success`/`_on_failure`, return the value or re-raise the same exception.
The `Bool` records that the action was invoked. -/
def settle {ε α : Type} (config : CircuitBreakerConfig) (st : BreakerState)
    (outcome : ActionOutcome ε α) (tEnd : ℚ) :
    CallResult ε α × BreakerState × Bool :=
  match outcome with
  | .ok a => (.returned a, on_success config st, true)
  | .err e => (.raised e, on_failure config st tEnd, true)

/-- The "Limit calls in half-open state" block of `call`, followed by
execution. -/
def half_open_gate {ε α : Type} (config : CircuitBreakerConfig) (st : BreakerState)
    (outcome : ActionOutcome ε α) (tEnd : ℚ) :
    CallResult ε α × BreakerState × Bool :=
  if st.state = .HalfOpen then
    if config.half_open_max_calls ≤ st.half_open_calls then
      (.circuit_open_error, st, false)
    else
      settle config { st with half_open_calls := st.half_open_calls + 1 } outcome tEnd
  else settle config st outcome tEnd

/-- `CircuitBreaker.call`: `tStart` is the `time.time()` at entry (used by
`_should_attempt_reset`), `outcome` the wrapped action's behaviour, and
`tEnd` the `time.time()` read if a failure is recorded. -/
def call {ε α : Type} (config : CircuitBreakerConfig) (st : BreakerState)
    (tStart : ℚ) (outcome : ActionOutcome ε α) (tEnd : ℚ) :
    CallResult ε α × BreakerState × Bool :=
  if st.state = .Open then
    if should_attempt_reset config st tStart then
      half_open_gate config { st with state := .HalfOpen, half_open_calls := 0 } outcome tEnd
    else (.circuit_open_error, st, false)
  else half_open_gate config st outcome tEnd

/-- One observable breaker event: entry time, action behaviour, failure time. -/
abbrev Event := ℚ × ActionOutcome Unit Unit × ℚ

/-- Folding a sequence of `call`s over a breaker state. -/
def run (config : CircuitBreakerConfig) (st : BreakerState) : List Event → BreakerState
  | [] => st
  | (t1, oc, t2) :: rest => run config (call config st t1 oc t2).2.1 rest

/-- Failure-count part of the reachability invariant: away from CLOSED the
failure count has already reached the threshold. -/
def fc_inv (config : CircuitBreakerConfig) (st : BreakerState) : Prop :=
  st.state ≠ .Closed → config.failure_threshold ≤ st.failure_count

/-- Half-open budget part of the reachability invariant: the remaining
half-open call budget can still deliver the missing successes, and a
half-open state that already has enough successes has made no call yet. -/
def ho_inv (config : CircuitBreakerConfig) (st : BreakerState) : Prop :=
  st.state = .HalfOpen →
    (st.half_open_calls + config.success_threshold ≤
      config.half_open_max_calls + st.success_count ∧
     (config.success_threshold ≤ st.success_count → st.half_open_calls = 0))

end CircuitBreaker

/-! ## Two-tier cache (`src/utils/cache.py`, class `PerformanceCache`) -/

/-- One cached entry: the `data` and `timestamp` fields of the stored tuple /
pickled dict. -/
structure CacheEntry where
  data : String
  timestamp : ℚ
deriving DecidableEq, Repr

/-- State of a `PerformanceCache`: the cache-wide `ttl` fixed at
construction, plus the in-memory dict and the on-disk cache directory, both
keyed by the md5 cache key (modelled as the canonical string fed to the
hash, the hash being injective on the inputs used here). File-system errors
are not modelled: reads and writes succeed. -/
structure CacheState where
  ttl : ℚ
  memory_cache : String → Option CacheEntry
  file_cache : String → Option CacheEntry

namespace PerformanceCache

/-- `PerformanceCache.__init__` (default `ttl=3600`), with empty tiers. -/
def init (ttl : ℚ) : CacheState := ⟨ttl, fun _ => none, fun _ => none⟩

/-- `_get_cache_key` applied to `{'type': 'api_response', 'prompt_hash': h}`. -/
def api_cache_key (prompt_hash : String) : String :=
  "api_response:" ++ prompt_hash

/-- `_is_expired`. -/
def is_expired (cache : CacheState) (timestamp now : ℚ) : Bool :=
  decide (cache.ttl < now - timestamp)

/-- Pointwise map update (dict assignment / deletion). -/
def upd (f : String → Option CacheEntry) (k : String) (v : Option CacheEntry) :
    String → Option CacheEntry :=
  fun k2 => if k2 = k then v else f k2

/-- The file-tier half of `get_api_response`: durable lookup, promotion into
the memory tier on a fresh hit, `unlink` on an expired hit. -/
def get_file (cache : CacheState) (key : String) (now : ℚ) :
    Option String × CacheState :=
  match cache.file_cache key with
  | none => (none, cache)
  | some e =>
    if is_expired cache e.timestamp now then
      (none, { cache with file_cache := upd cache.file_cache key none })
    else
      (some e.data, { cache with memory_cache := upd cache.memory_cache key (some e) })

/-- `get_api_response`: memory tier first; an expired memory entry is
deleted and the lookup falls through to the file tier. -/
def get_api_response (cache : CacheState) (prompt_hash : String) (now : ℚ) :
    Option String × CacheState :=
  let key := api_cache_key prompt_hash
  match cache.memory_cache key with
  | some e =>
    if is_expired cache e.timestamp now then
      get_file { cache with memory_cache := upd cache.memory_cache key none } key now
    else
      (some e.data, cache)
  | none => get_file cache key now

/-- `set_api_response`: store into both tiers with `timestamp = now`. -/
def set_api_response (cache : CacheState) (prompt_hash : String)
    (response : String) (now : ℚ) : CacheState :=
  let key := api_cache_key prompt_hash
  { cache with
    memory_cache := upd cache.memory_cache key (some ⟨response, now⟩)
    file_cache := upd cache.file_cache key (some ⟨response, now⟩) }

end PerformanceCache

/-- Refinement reference for claim C7, written from the spec's words: a `Set`
taking a per-entry `ttlSeconds` and a `Get` judging freshness by
`now − createdAt < ttlSeconds` of that entry (a single tier suffices to
express the per-entry-TTL reading under test). -/
structure SpecCacheEntry where
  value : String
  createdAt : ℚ
  ttlSeconds : ℚ
deriving DecidableEq, Repr

def specCacheSet (store : String → Option SpecCacheEntry) (key value : String)
    (ttlSeconds now : ℚ) : String → Option SpecCacheEntry :=
  fun k => if k = key then some ⟨value, now, ttlSeconds⟩ else store k

def specCacheGet (store : String → Option SpecCacheEntry) (key : String)
    (now : ℚ) : Option String :=
  match store key with
  | none => none
  | some e => if now - e.createdAt < e.ttlSeconds then some e.value else none

/-! ## Gemini wrapper (`src/integrations/gemini_client.py`,
`GeminiClient.generate_response`) -/

namespace GeminiClient

/-- Outcome of the rate-limit gate at the top of `generate_response`: either
control falls through to the main body, or the function returns early —
with a cached response, or with the
`"Rate limit exceeded. Retry after ... seconds."` message string. All three
are ordinary returns; nothing is raised on this path. -/
inductive GateResult
  | proceeded
  | cached_response (s : String)
  | rate_limit_message (retry_after : ℚ)
deriving DecidableEq, Repr

/-- The `if not allowed:` block of `generate_response`: on denial with
`use_cache`, try `performance_cache.get_api_response`; a non-empty cached
string (Python truthiness of `if cached_response:`) is returned, otherwise
the rate-limit message string is returned carrying `info['retry_after']`. -/
def rate_limit_gate (config : RateLimitConfig) (rl : RateLimiterState)
    (cache : CacheState) (now : ℚ) (prompt_hash : String) (use_cache : Bool) :
    GateResult × RateLimiterState × CacheState :=
  match RateLimiter.is_allowed config rl now 1 with
  | (.allowed _ _ _, rl2) => (.proceeded, rl2, cache)
  | (.denied _ retry, rl2) =>
    if use_cache then
      match PerformanceCache.get_api_response cache prompt_hash now with
      | (some c, cache2) =>
        if c ≠ "" then (.cached_response c, rl2, cache2)
        else (.rate_limit_message retry, rl2, cache2)
      | (none, cache2) => (.rate_limit_message retry, rl2, cache2)
    else (.rate_limit_message retry, rl2, cache)

/-- Error flow of the main body of `generate_response` after the cache
check: the breaker yields the response text (returned normally), its own
`CircuitBreakerOpenError` (handled in the inner `except`: cached fallback or
the "Service temporarily unavailable" string), or the action's exception —
which escapes the inner `except (ImportError, CircuitBreakerOpenError)` and
is caught by the outer `except Exception`, returning an error-message
string. The codomain keeps an `Except.error` case so that an exception
escaping `generate_response` would be expressible; every path in fact
returns `Except.ok`. -/
def body_result (breaker_result : CircuitBreaker.CallResult String String)
    (cached_fallback : Option String) : Except String String :=
  match breaker_result with
  | .returned text => .ok text
  | .circuit_open_error =>
    (match cached_fallback with
     | some c =>
       if c ≠ "" then .ok c
       else .ok "Service temporarily unavailable. Using fallback response."
     | none => .ok "Service temporarily unavailable. Using fallback response.")
  | .raised e => .ok ("Error: Unable to generate response - " ++ e)

end GeminiClient

/-! ### Rate-limiter theorems -/

namespace RateLimiter

theorem cleanup_tokens (st : RateLimiterState) (now : ℚ) :
    (cleanup_old_requests st now).tokens = st.tokens := rfl

theorem cleanup_last_refill (st : RateLimiterState) (now : ℚ) :
    (cleanup_old_requests st now).last_refill = st.last_refill := rfl

/-- Single-step preservation of the token-bucket invariant, plus
`last_refill ≤ now` afterwards. -/
theorem is_allowed_step_invariant (config : RateLimitConfig) (st : RateLimiterState)
    (now : ℚ) (cost : ℤ)
    (hb : 0 ≤ config.burst_allowance) (hr : 0 ≤ config.requests_per_minute)
    (ht : st.last_refill ≤ now) (hc : 0 ≤ cost)
    (h0 : 0 ≤ st.tokens) (h1 : st.tokens ≤ config.burst_allowance) :
    0 ≤ (is_allowed config st now cost).2.tokens ∧
    (is_allowed config st now cost).2.tokens ≤ config.burst_allowance ∧
    (is_allowed config st now cost).2.last_refill ≤ now := by
  unfold is_allowed
  set st1 := cleanup_old_requests st now with hst1
  have hts : st1.tokens = st.tokens := rfl
  have hlr : st1.last_refill = st.last_refill := rfl
  by_cases hm : config.requests_per_minute ≤ (st1.minute_requests.length : ℤ)
  · simp only [hm, if_true, hts, hlr]
    exact ⟨h0, h1, ht⟩
  · simp only [hm, if_false]
    by_cases hh : config.requests_per_hour ≤ (st1.hour_requests.length : ℤ)
    · simp only [hh, if_true, hts, hlr]
      exact ⟨h0, h1, ht⟩
    · simp only [hh, if_false]
      have hadd : 0 ≤ pyInt ((now - st1.last_refill) * (config.requests_per_minute : ℚ) / 60) := by
        apply pyInt_nonneg
        apply div_nonneg _ (by norm_num)
        apply mul_nonneg (by rw [hlr]; linarith) (by exact_mod_cast hr)
      set st2 := refill_tokens config st1 now with hst2
      have h2t : st2.tokens = min config.burst_allowance (st1.tokens +
          pyInt ((now - st1.last_refill) * (config.requests_per_minute : ℚ) / 60)) := rfl
      have h2l : st2.last_refill = now := rfl
      have h20 : 0 ≤ st2.tokens := by
        rw [h2t]
        exact le_min hb (by rw [hts]; linarith)
      have h21 : st2.tokens ≤ config.burst_allowance := by
        rw [h2t]; exact min_le_left _ _
      by_cases hlt : st2.tokens < cost
      · simp only [hlt, if_true]
        exact ⟨h20, h21, le_of_eq h2l⟩
      · simp only [hlt, if_false]
        push_neg at hlt
        refine ⟨by simpa using Int.sub_nonneg.mpr hlt, ?_, le_of_eq h2l⟩
        simpa using le_trans (Int.sub_le_self _ hc) h21

/-- Invariant over a whole run, generalized to any well-formed start state. -/
theorem run_calls_invariant (config : RateLimitConfig)
    (hb : 0 ≤ config.burst_allowance) (hr : 0 ≤ config.requests_per_minute) :
    ∀ (calls : List (ℚ × ℤ)) (st : RateLimiterState) (t : ℚ),
      calls_ok t calls → st.last_refill ≤ t →
      0 ≤ st.tokens → st.tokens ≤ config.burst_allowance →
      0 ≤ (run_calls config st calls).tokens ∧
      (run_calls config st calls).tokens ≤ config.burst_allowance
  | [], st, t, _, _, h0, h1 => ⟨h0, h1⟩
  | (now, cost) :: rest, st, t, hok, hlr, h0, h1 => by
    obtain ⟨htn, hc, hrest⟩ := hok
    obtain ⟨p0, p1, p2⟩ :=
      is_allowed_step_invariant config st now cost hb hr (le_trans hlr htn) hc h0 h1
    exact run_calls_invariant config hb hr rest _ now hrest p2 p0 p1

end RateLimiter

open RateLimiter in
/-- C1 (counterexample): the refill of `RateLimiter._refill_tokens` is not the
fraction-preserving `min(burstCapacity, tokensAvailable + elapsed × requestsPerMinute / 60)`.
With `requestsPerMinute = 60`, `burstCapacity = 10`, `tokensAvailable = 5`,
`lastRefillTime = 0` and `now = 1/2`, the claimed update yields `11/2`, but the
code leaves the token count at `5`: the accrued credit `1/2` is discarded. -/
theorem c1_refill_not_continuous_cex :
    (refill_tokens ⟨60, 1000, 10, 60⟩ ⟨5, 0, [], []⟩ (1/2)).tokens = 5 ∧
    specContinuousRefill ⟨60, 1000, 10, 60⟩ 5 ((1:ℚ)/2 - 0) = 11/2 ∧
    ((refill_tokens ⟨60, 1000, 10, 60⟩ ⟨5, 0, [], []⟩ (1/2)).tokens : ℚ) ≠
      specContinuousRefill ⟨60, 1000, 10, 60⟩ 5 ((1:ℚ)/2 - 0) := by
  refine ⟨?_, ?_, ?_⟩
  · simp +decide [refill_tokens, pyInt]
  · norm_num [specContinuousRefill]
  · simp +decide [refill_tokens, pyInt]
    have h : Int.tdiv 1 2 = 0 := by decide
    rw [h]
    norm_num [specContinuousRefill]

open RateLimiter in
/-- C1 (amended): for every `is_allowed` call that passes both sliding-window
checks, `lastRefillTime` is set to `now` and the token count becomes
`min(burstCapacity, tokensAvailable + int(elapsed × requestsPerMinute / 60))`
(minus `cost` when the request is allowed): the credit is truncated to a whole
number of tokens, so fractional credit is discarded at every refill. -/
theorem c1_refill_truncated (config : RateLimitConfig) (st : RateLimiterState)
    (now : ℚ) (cost : ℤ) (hw : windows_pass config st now) :
    (is_allowed config st now cost).2.last_refill = now ∧
    (is_allowed config st now cost).2.tokens =
      (if cost ≤ truncated_refill config st now
       then truncated_refill config st now - cost
       else truncated_refill config st now) := by
  obtain ⟨hm, hh⟩ := hw
  have hM : (refill_tokens config (cleanup_old_requests st now) now).tokens =
      truncated_refill config st now := rfl
  unfold is_allowed
  simp only [not_le.mpr hm, if_false, not_le.mpr hh]
  by_cases hlt : (refill_tokens config (cleanup_old_requests st now) now).tokens < cost
  · rw [if_pos hlt]
    refine ⟨rfl, ?_⟩
    rw [if_neg (not_le.mpr (hM ▸ hlt)), ← hM]
  · rw [if_neg hlt]
    refine ⟨rfl, ?_⟩
    rw [if_pos (hM ▸ not_lt.mp hlt), ← hM]

/-- C1 witness: the amended refill equation evaluated on the `gemini_api`
configuration with a whole-number credit. -/
theorem c1_refill_truncated_witness :
    (RateLimiter.is_allowed ⟨30, 500, 5, 45⟩ ⟨2, 0, [], []⟩ 1 1).2.last_refill = 1 ∧
    (RateLimiter.is_allowed ⟨30, 500, 5, 45⟩ ⟨2, 0, [], []⟩ 1 1).2.tokens =
      (if (1:ℤ) ≤ RateLimiter.truncated_refill ⟨30, 500, 5, 45⟩ ⟨2, 0, [], []⟩ 1
       then RateLimiter.truncated_refill ⟨30, 500, 5, 45⟩ ⟨2, 0, [], []⟩ 1 - 1
       else RateLimiter.truncated_refill ⟨30, 500, 5, 45⟩ ⟨2, 0, [], []⟩ 1) :=
  c1_refill_truncated ⟨30, 500, 5, 45⟩ ⟨2, 0, [], []⟩ 1 1
    (by constructor <;> simp +decide [RateLimiter.windows_pass, RateLimiter.cleanup_old_requests])

open RateLimiter in
/-- C4: starting from a freshly constructed `RateLimiter` (non-negative burst
capacity and refill rate), after any sequence of `is_allowed` calls with
nondecreasing call times and non-negative costs, the token-bucket invariant
`0 ≤ tokensAvailable ≤ burstCapacity` holds. -/
theorem c4_token_invariant (config : RateLimitConfig)
    (hb : 0 ≤ config.burst_allowance) (hr : 0 ≤ config.requests_per_minute)
    (t0 : ℚ) (calls : List (ℚ × ℤ)) (hok : calls_ok t0 calls) :
    0 ≤ (run_calls config (init config t0) calls).tokens ∧
    (run_calls config (init config t0) calls).tokens ≤ config.burst_allowance :=
  run_calls_invariant config hb hr calls (init config t0) t0 hok (le_refl _) hb (le_refl _)

/-- C4 witness: the `gemini_api` configuration run through a concrete mixed
sequence of calls (allowed, token-exhausting denial, and refill). -/
theorem c4_token_invariant_witness :
    0 ≤ (RateLimiter.run_calls ⟨30, 500, 5, 45⟩
        (RateLimiter.init ⟨30, 500, 5, 45⟩ 0)
        [(0, 2), (0, 2), (0, 2), (2, 1), (10, 1)]).tokens ∧
    (RateLimiter.run_calls ⟨30, 500, 5, 45⟩
        (RateLimiter.init ⟨30, 500, 5, 45⟩ 0)
        [(0, 2), (0, 2), (0, 2), (2, 1), (10, 1)]).tokens ≤ (5:ℤ) :=
  c4_token_invariant ⟨30, 500, 5, 45⟩ (by decide) (by decide) 0 _
    (by simp +decide [RateLimiter.calls_ok])

open RateLimiter in
/-- C10: every denied `is_allowed` call leaves the windows unappended and the
token count undecremented; a minute- or hour-window denial leaves the state
exactly as pruned by `_cleanup_old_requests` (tokens and `lastRefillTime`
untouched), and a token-shortage denial leaves exactly the pruned-and-refilled
state. -/
theorem c10_denial_frame (config : RateLimitConfig) (st : RateLimiterState)
    (now : ℚ) (cost : ℤ) (reason : DenyReason) (ra : ℚ)
    (h : (is_allowed config st now cost).1 = .denied reason ra) :
    (is_allowed config st now cost).2 =
      (if reason = .burst_limit
       then refill_tokens config (cleanup_old_requests st now) now
       else cleanup_old_requests st now) ∧
    (reason ≠ .burst_limit →
      (is_allowed config st now cost).2.tokens = st.tokens ∧
      (is_allowed config st now cost).2.last_refill = st.last_refill) := by
  unfold is_allowed at h ⊢
  by_cases hm : config.requests_per_minute ≤
      ((cleanup_old_requests st now).minute_requests.length : ℤ)
  · simp only [hm, if_true] at h ⊢
    obtain ⟨hr, -⟩ := AllowResult.denied.inj h
    subst hr
    exact ⟨by simp, fun _ => ⟨rfl, rfl⟩⟩
  · simp only [hm, if_false] at h ⊢
    by_cases hh : config.requests_per_hour ≤
        ((cleanup_old_requests st now).hour_requests.length : ℤ)
    · simp only [hh, if_true] at h ⊢
      obtain ⟨hr, -⟩ := AllowResult.denied.inj h
      subst hr
      exact ⟨by simp, fun _ => ⟨rfl, rfl⟩⟩
    · simp only [hh, if_false] at h ⊢
      by_cases hlt : (refill_tokens config (cleanup_old_requests st now) now).tokens < cost
      · simp only [hlt, if_true] at h ⊢
        obtain ⟨hr, -⟩ := AllowResult.denied.inj h
        subst hr
        exact ⟨by simp, fun hne => absurd rfl hne⟩
      · simp only [hlt, if_false] at h
        exact absurd h (by simp)

/-- C10 witness: a concrete minute-window denial leaves only the pruned
windows behind. -/
theorem c10_denial_frame_witness :
    (RateLimiter.is_allowed ⟨1, 1000, 10, 60⟩ ⟨10, 0, [0], [0]⟩ 10 1).2 =
      (if RateLimiter.DenyReason.minute_limit = RateLimiter.DenyReason.burst_limit
       then RateLimiter.refill_tokens ⟨1, 1000, 10, 60⟩
         (RateLimiter.cleanup_old_requests ⟨10, 0, [0], [0]⟩ 10) 10
       else RateLimiter.cleanup_old_requests ⟨10, 0, [0], [0]⟩ 10) ∧
    (RateLimiter.DenyReason.minute_limit ≠ RateLimiter.DenyReason.burst_limit →
      (RateLimiter.is_allowed ⟨1, 1000, 10, 60⟩ ⟨10, 0, [0], [0]⟩ 10 1).2.tokens = 10 ∧
      (RateLimiter.is_allowed ⟨1, 1000, 10, 60⟩ ⟨10, 0, [0], [0]⟩ 10 1).2.last_refill = 0) :=
  c10_denial_frame ⟨1, 1000, 10, 60⟩ ⟨10, 0, [0], [0]⟩ 10 1 .minute_limit 50
    (by norm_num [RateLimiter.is_allowed, RateLimiter.cleanup_old_requests,
      ComplianceNav.pyMin])

/-! ### Circuit-breaker theorems -/

namespace CircuitBreaker

theorem run_append (config : CircuitBreakerConfig) :
    ∀ (a b : List Event) (st : BreakerState),
      run config st (a ++ b) = run config (run config st a) b
  | [], _, _ => rfl
  | (t1, oc, t2) :: rest, b, st => by
    simp only [List.cons_append, run]
    exact run_append config rest b _

theorem call_closed {ε α : Type} (config : CircuitBreakerConfig) (st : BreakerState)
    (t1 : ℚ) (oc : ActionOutcome ε α) (t2 : ℚ) (h : st.state = .Closed) :
    call config st t1 oc t2 = settle config st oc t2 := by
  unfold call half_open_gate
  rw [if_neg (by simp [h]), if_neg (by simp [h])]

theorem call_halfopen_gated {ε α : Type} (config : CircuitBreakerConfig)
    (st : BreakerState) (t1 : ℚ) (oc : ActionOutcome ε α) (t2 : ℚ)
    (h : st.state = .HalfOpen) (hfull : config.half_open_max_calls ≤ st.half_open_calls) :
    call config st t1 oc t2 = (.circuit_open_error, st, false) := by
  unfold call half_open_gate
  rw [if_neg (by simp [h]), if_pos h, if_pos hfull]

theorem call_halfopen_under {ε α : Type} (config : CircuitBreakerConfig)
    (st : BreakerState) (t1 : ℚ) (oc : ActionOutcome ε α) (t2 : ℚ)
    (h : st.state = .HalfOpen) (hroom : st.half_open_calls < config.half_open_max_calls) :
    call config st t1 oc t2 =
      settle config { st with half_open_calls := st.half_open_calls + 1 } oc t2 := by
  unfold call half_open_gate
  rw [if_neg (by simp [h]), if_pos h, if_neg (not_le.mpr hroom)]

theorem call_open_no_reset {ε α : Type} (config : CircuitBreakerConfig)
    (st : BreakerState) (t1 : ℚ) (oc : ActionOutcome ε α) (t2 : ℚ)
    (h : st.state = .Open) (hres : should_attempt_reset config st t1 = false) :
    call config st t1 oc t2 = (.circuit_open_error, st, false) := by
  unfold call
  rw [if_pos h, hres]
  rfl

theorem call_open_reset {ε α : Type} (config : CircuitBreakerConfig)
    (st : BreakerState) (t1 : ℚ) (oc : ActionOutcome ε α) (t2 : ℚ)
    (h : st.state = .Open) (hres : should_attempt_reset config st t1 = true) :
    call config st t1 oc t2 =
      half_open_gate config { st with state := .HalfOpen, half_open_calls := 0 } oc t2 := by
  unfold call
  rw [if_pos h, hres]
  rfl

theorem fc_inv_init (config : CircuitBreakerConfig) : fc_inv config init :=
  fun h => absurd rfl h

theorem fc_inv_step {ε α : Type} (config : CircuitBreakerConfig) (st : BreakerState)
    (t1 : ℚ) (oc : ActionOutcome ε α) (t2 : ℚ) (h : fc_inv config st) :
    fc_inv config (call config st t1 oc t2).2.1 := by
  rcases st with ⟨s, fc, sc, lft, hoc⟩
  rcases s <;> rcases oc with a | e <;>
    simp only [fc_inv, call, half_open_gate, settle, on_success, on_failure,
      reset_circuit] at h ⊢ <;>
    split_ifs <;> simp_all <;> omega

theorem fc_inv_run (config : CircuitBreakerConfig) :
    ∀ (evs : List Event) (st : BreakerState),
      fc_inv config st → fc_inv config (run config st evs)
  | [], _, h => h
  | (t1, oc, t2) :: rest, st, h =>
    fc_inv_run config rest _ (fc_inv_step config st t1 oc t2 h)

/-- Consecutive failures from CLOSED below the threshold leave the breaker
CLOSED with the failure count incremented once per failure. -/
theorem run_fail_closed (config : CircuitBreakerConfig) (t1 t2 : ℚ) :
    ∀ (k : ℕ) (st : BreakerState), st.state = .Closed →
      st.failure_count + k < config.failure_threshold →
      (run config st (List.replicate k (t1, .err ⟨⟩, t2))).state = .Closed ∧
      (run config st (List.replicate k (t1, .err ⟨⟩, t2))).failure_count =
        st.failure_count + k
  | 0, st, h, _ => ⟨h, by simp [run]⟩
  | k + 1, st, h, hlt => by
    rw [List.replicate_succ, run, call_closed config st t1 _ t2 h]
    have hno : ¬ config.failure_threshold ≤ st.failure_count + 1 := by omega
    have hst : (settle (ε := Unit) (α := Unit) config st (ActionOutcome.err ⟨⟩) t2).2.1 =
        { st with failure_count := st.failure_count + 1, last_failure_time := some t2 } := by
      simp [settle, on_failure, hno]
    rw [hst]
    obtain ⟨h1, h2⟩ := run_fail_closed config t1 t2 k
      { st with failure_count := st.failure_count + 1, last_failure_time := some t2 }
      h (by simp; omega)
    exact ⟨h1, by simp at h2; omega⟩

/-- C5: (a) `failureThreshold` consecutive action failures from a fresh
breaker leave it OPEN; (b) while OPEN with a nonzero recorded failure time
and `now − lastFailureTime < recoveryTimeout`, every call raises
`CircuitBreakerOpenError` without invoking the action and without touching
the state; (c) once `now − lastFailureTime ≥ recoveryTimeout` (and at least
one half-open call is permitted), the next call first moves the breaker to
HALF_OPEN (consuming one half-open slot) and then invokes the action. -/
theorem c5_open_cycle :
    (∀ (config : CircuitBreakerConfig) (t1 t2 : ℚ), 1 ≤ config.failure_threshold →
      (run config init
        (List.replicate config.failure_threshold (t1, .err ⟨⟩, t2))).state = .Open) ∧
    (∀ (ε α : Type) (config : CircuitBreakerConfig) (st : BreakerState)
       (t1 : ℚ) (oc : ActionOutcome ε α) (t2 tl : ℚ),
      st.state = .Open → st.last_failure_time = some tl → tl ≠ 0 →
      t1 - tl < config.recovery_timeout →
      call config st t1 oc t2 = (.circuit_open_error, st, false)) ∧
    (∀ (ε α : Type) (config : CircuitBreakerConfig) (st : BreakerState)
       (t1 : ℚ) (oc : ActionOutcome ε α) (t2 tl : ℚ),
      st.state = .Open → st.last_failure_time = some tl →
      config.recovery_timeout ≤ t1 - tl → 1 ≤ config.half_open_max_calls →
      call config st t1 oc t2 =
        settle config { st with state := .HalfOpen, half_open_calls := 1 } oc t2 ∧
      (call config st t1 oc t2).2.2 = true) := by
  refine ⟨?_, ?_, ?_⟩
  · intro config t1 t2 hth
    obtain ⟨m, hm⟩ : ∃ m, config.failure_threshold = m + 1 :=
      ⟨config.failure_threshold - 1, by omega⟩
    rw [hm, List.replicate_succ', run_append]
    obtain ⟨h1, h2⟩ := run_fail_closed config t1 t2 m init rfl (by simp [init]; omega)
    rw [run, run, call_closed config _ t1 _ t2 h1]
    simp only [settle, on_failure]
    rw [if_pos (by rw [hm]; omega)]
  · intro ε α config st t1 oc t2 tl hs hl htl hlt
    apply call_open_no_reset config st t1 oc t2 hs
    unfold should_attempt_reset
    rw [hl]
    simp only [Bool.or_eq_false_iff, decide_eq_false_iff_not]
    exact ⟨htl, by linarith⟩
  · intro ε α config st t1 oc t2 tl hs hl hge hmax
    have hres : should_attempt_reset config st t1 = true := by
      unfold should_attempt_reset
      rw [hl]
      simp only [Bool.or_eq_true, decide_eq_true_eq]
      exact Or.inr hge
    rw [call_open_reset config st t1 oc t2 hs hres]
    unfold half_open_gate
    rw [if_pos rfl, if_neg (by simp; omega)]
    constructor
    · rfl
    · cases oc <;> rfl

/-- C5 witness: the `gemini_api` breaker policy `(2, 120, 1, 1)` run through
each of the three clauses at concrete inputs. -/
theorem c5_open_cycle_witness :
    (run ⟨2, 120, 1, 1⟩ init (List.replicate 2 ((1:ℚ), .err ⟨⟩, (1:ℚ)))).state = .Open ∧
    call (ε := Unit) (α := Unit) ⟨2, 120, 1, 1⟩ ⟨.Open, 2, 0, some 1, 0⟩ 2 (.ok ⟨⟩) 2 =
      (.circuit_open_error, ⟨.Open, 2, 0, some 1, 0⟩, false) ∧
    call (ε := Unit) (α := Unit) ⟨2, 120, 1, 1⟩ ⟨.Open, 2, 0, some 1, 0⟩ 121 (.ok ⟨⟩) 121 =
      settle ⟨2, 120, 1, 1⟩ ⟨.HalfOpen, 2, 0, some 1, 1⟩ (.ok ⟨⟩) 121 := by
  refine ⟨c5_open_cycle.1 ⟨2, 120, 1, 1⟩ 1 1 (by decide), ?_, ?_⟩
  · exact c5_open_cycle.2.1 Unit Unit ⟨2, 120, 1, 1⟩ ⟨.Open, 2, 0, some 1, 0⟩
      2 (.ok ⟨⟩) 2 1 rfl rfl (by norm_num) (by norm_num)
  · exact (c5_open_cycle.2.2 Unit Unit ⟨2, 120, 1, 1⟩ ⟨.Open, 2, 0, some 1, 0⟩
      121 (.ok ⟨⟩) 121 1 rfl rfl (by norm_num) (by norm_num)).1

/-- C6 (counterexample): a HALF_OPEN failure does not reset the half-open
counters. Policy `(failure_threshold 2, recovery_timeout 10, half_open_max_calls 3,
success_threshold 2)`; two failures open the breaker, a call at `t = 12`
half-opens it and succeeds (`success_count = 1`), and the next call fails.
The breaker returns to OPEN with `last_failure_time = 13`, but
`success_count` is still `1` and `half_open_calls` is `2` — neither counter
was reset to `0`. -/
theorem c6_halfopen_failure_cex :
    run ⟨2, 10, 3, 2⟩ init
        [(0, .err ⟨⟩, 1), (1, .err ⟨⟩, 2), (12, .ok ⟨⟩, 12), (12, .err ⟨⟩, 13)] =
      ⟨.Open, 3, 1, some 13, 2⟩ ∧
    (run ⟨2, 10, 3, 2⟩ init
        [(0, .err ⟨⟩, 1), (1, .err ⟨⟩, 2), (12, .ok ⟨⟩, 12), (12, .err ⟨⟩, 13)]).success_count ≠ 0 ∧
    (run ⟨2, 10, 3, 2⟩ init
        [(0, .err ⟨⟩, 1), (1, .err ⟨⟩, 2), (12, .ok ⟨⟩, 12), (12, .err ⟨⟩, 13)]).half_open_calls ≠ 0 := by
  have e1 : (call (ε := Unit) (α := Unit) ⟨2, 10, 3, 2⟩ init 0 (.err ⟨⟩) 1).2.1 =
      ⟨.Closed, 1, 0, some 1, 0⟩ := by
    rw [call_closed ⟨2, 10, 3, 2⟩ init 0 _ 1 rfl]
    simp +decide [settle, on_failure]
  have e2 : (call (ε := Unit) (α := Unit) ⟨2, 10, 3, 2⟩ ⟨.Closed, 1, 0, some 1, 0⟩
      1 (.err ⟨⟩) 2).2.1 = ⟨.Open, 2, 0, some 2, 0⟩ := by
    rw [call_closed ⟨2, 10, 3, 2⟩ _ 1 _ 2 rfl]
    simp +decide [settle, on_failure]
  have hres : should_attempt_reset ⟨2, 10, 3, 2⟩ ⟨.Open, 2, 0, some 2, 0⟩ 12 = true := by
    norm_num [should_attempt_reset]
  have e3 : (call (ε := Unit) (α := Unit) ⟨2, 10, 3, 2⟩ ⟨.Open, 2, 0, some 2, 0⟩
      12 (.ok ⟨⟩) 12).2.1 = ⟨.HalfOpen, 2, 1, some 2, 1⟩ := by
    rw [call_open_reset ⟨2, 10, 3, 2⟩ _ 12 _ 12 rfl hres]
    simp +decide [half_open_gate, settle, on_success, reset_circuit]
  have e4 : (call (ε := Unit) (α := Unit) ⟨2, 10, 3, 2⟩ ⟨.HalfOpen, 2, 1, some 2, 1⟩
      12 (.err ⟨⟩) 13).2.1 = ⟨.Open, 3, 1, some 13, 2⟩ := by
    rw [call_halfopen_under ⟨2, 10, 3, 2⟩ _ 12 _ 13 rfl (by decide)]
    simp +decide [settle, on_failure]
  have hrun : run ⟨2, 10, 3, 2⟩ init
      [(0, .err ⟨⟩, 1), (1, .err ⟨⟩, 2), (12, .ok ⟨⟩, 12), (12, .err ⟨⟩, 13)] =
      ⟨.Open, 3, 1, some 13, 2⟩ := by
    simp only [run]
    rw [e1, e2, e3, e4]
  exact ⟨hrun, by rw [hrun]; decide, by rw [hrun]; decide⟩

/-- C6 (amended): in every reachable breaker state, being away from CLOSED
means the failure count has reached the threshold; hence a failure on an
in-flight HALF_OPEN call (one that passed the half-open gate) moves the
breaker to OPEN — never to CLOSED — and records `lastFailureTime = tEnd`,
but it does **not** reset the half-open counters: `success_count` is
unchanged and `half_open_calls` keeps the increment it got on admission
(both are cleared only later, by `_reset_circuit` or by the next
OPEN→HALF_OPEN transition for `half_open_calls`). -/
theorem c6_halfopen_failure_reopens :
    (∀ (config : CircuitBreakerConfig) (evs : List Event),
      fc_inv config (run config init evs)) ∧
    (∀ (ε α : Type) (config : CircuitBreakerConfig) (st : BreakerState)
       (t1 : ℚ) (e : ε) (t2 : ℚ),
      st.state = .HalfOpen → st.half_open_calls < config.half_open_max_calls →
      config.failure_threshold ≤ st.failure_count + 1 →
      call (α := α) config st t1 (.err e) t2 =
        (.raised e,
         { st with
            state := .Open
            failure_count := st.failure_count + 1
            last_failure_time := some t2
            half_open_calls := st.half_open_calls + 1 },
         true)) := by
  constructor
  · intro config evs
    exact fc_inv_run config evs init (fc_inv_init config)
  · intro ε α config st t1 e t2 hs hroom hth
    rw [call_halfopen_under config st t1 (.err e) t2 hs hroom]
    simp only [settle, on_failure]
    rw [if_pos (by simpa using hth)]

/-- C6 witness: the amended behaviour at the state reached in the
counterexample trace just before its final failure. -/
theorem c6_halfopen_failure_reopens_witness :
    fc_inv ⟨2, 10, 3, 2⟩ (run ⟨2, 10, 3, 2⟩ init [(0, .err ⟨⟩, 1)]) ∧
    call (ε := Unit) (α := Unit) ⟨2, 10, 3, 2⟩ ⟨.HalfOpen, 2, 1, some 2, 1⟩ 12 (.err ⟨⟩) 13 =
      (.raised ⟨⟩, ⟨.Open, 3, 1, some 13, 2⟩, true) :=
  ⟨c6_halfopen_failure_reopens.1 ⟨2, 10, 3, 2⟩ [(0, .err ⟨⟩, 1)],
   c6_halfopen_failure_reopens.2 Unit Unit ⟨2, 10, 3, 2⟩ ⟨.HalfOpen, 2, 1, some 2, 1⟩
     12 ⟨⟩ 13 rfl (by decide) (by decide)⟩

theorem ho_inv_init (config : CircuitBreakerConfig) : ho_inv config init :=
  fun h => by cases h

theorem ho_inv_step {ε α : Type} (config : CircuitBreakerConfig) (st : BreakerState)
    (t1 : ℚ) (oc : ActionOutcome ε α) (t2 : ℚ)
    (h2 : config.success_threshold ≤ config.half_open_max_calls)
    (hf : fc_inv config st) (h : ho_inv config st) :
    ho_inv config (call config st t1 oc t2).2.1 := by
  rcases st with ⟨s, fc, sc, lft, hoc⟩
  rcases s <;> rcases oc with a | e <;>
    simp only [fc_inv, ho_inv, call, half_open_gate, settle, on_success, on_failure,
      reset_circuit] at hf h ⊢ <;>
    split_ifs <;> simp_all <;> omega

theorem inv_run (config : CircuitBreakerConfig)
    (h2 : config.success_threshold ≤ config.half_open_max_calls) :
    ∀ (evs : List Event) (st : BreakerState),
      fc_inv config st → ho_inv config st →
      fc_inv config (run config st evs) ∧ ho_inv config (run config st evs)
  | [], _, hf, hh => ⟨hf, hh⟩
  | (t1, oc, t2) :: rest, st, hf, hh =>
    inv_run config h2 rest _ (fc_inv_step config st t1 oc t2 hf)
      (ho_inv_step config st t1 oc t2 h2 hf hh)

/-- In a half-open state satisfying both invariant parts there is room for
one more half-open call. -/
theorem halfopen_room (config : CircuitBreakerConfig) (st : BreakerState)
    (h1 : 1 ≤ config.half_open_max_calls) (hs : st.state = .HalfOpen)
    (h : ho_inv config st) :
    st.half_open_calls < config.half_open_max_calls := by
  obtain ⟨hbudget, hzero⟩ := h hs
  by_cases hsc : config.success_threshold ≤ st.success_count
  · rw [hzero hsc]; omega
  · omega

/-- From CLOSED, enough consecutive failures reach OPEN. -/
theorem closed_to_open_fuel (config : CircuitBreakerConfig) :
    ∀ (n : ℕ) (st : BreakerState), st.state = .Closed →
      config.failure_threshold ≤ st.failure_count + n + 1 →
      ∃ evs : List Event, (run config st evs).state = .Open
  | 0, st, hs, hth => by
    refine ⟨[(0, .err ⟨⟩, 0)], ?_⟩
    rw [run, run, call_closed config st 0 _ 0 hs]
    simp only [settle, on_failure]
    rw [if_pos (by simpa using hth)]
  | n + 1, st, hs, hth => by
    by_cases hone : config.failure_threshold ≤ st.failure_count + 1
    · refine ⟨[(0, .err ⟨⟩, 0)], ?_⟩
      rw [run, run, call_closed config st 0 _ 0 hs]
      simp only [settle, on_failure]
      rw [if_pos (by simpa using hone)]
    · have hstep : (call (ε := Unit) (α := Unit) config st 0 (.err ⟨⟩) 0).2.1 =
          { st with failure_count := st.failure_count + 1, last_failure_time := some 0 } := by
        rw [call_closed config st 0 _ 0 hs]
        simp only [settle, on_failure]
        rw [if_neg (by simpa using hone)]
      obtain ⟨evs, hevs⟩ := closed_to_open_fuel config n
        { st with failure_count := st.failure_count + 1, last_failure_time := some 0 }
        hs (by simp; omega)
      exact ⟨(0, .err ⟨⟩, 0) :: evs, by rw [run, hstep]; exact hevs⟩

theorem closed_to_open (config : CircuitBreakerConfig) (st : BreakerState)
    (hs : st.state = .Closed) :
    ∃ evs : List Event, (run config st evs).state = .Open :=
  closed_to_open_fuel config config.failure_threshold st hs (by omega)

/-- From HALF_OPEN (under the reachability invariant, with at least one probe
call allowed) a single failing call reaches OPEN. -/
theorem halfopen_to_open (config : CircuitBreakerConfig) (st : BreakerState)
    (h1 : 1 ≤ config.half_open_max_calls) (hs : st.state = .HalfOpen)
    (hf : fc_inv config st) (hh : ho_inv config st) :
    ∃ evs : List Event, (run config st evs).state = .Open := by
  refine ⟨[(0, .err ⟨⟩, 0)], ?_⟩
  rw [run, run, call_halfopen_under config st 0 _ 0 hs (halfopen_room config st h1 hs hh)]
  simp only [settle, on_failure]
  rw [if_pos]
  have := hf (by rw [hs]; simp)
  simpa using Nat.le_succ_of_le this

/-- From HALF_OPEN with enough half-open budget, repeated successes reach
CLOSED. -/
theorem halfopen_to_closed_fuel (config : CircuitBreakerConfig) :
    ∀ (n : ℕ) (st : BreakerState), st.state = .HalfOpen →
      1 ≤ config.half_open_max_calls →
      st.half_open_calls + config.success_threshold ≤
        config.half_open_max_calls + st.success_count →
      (config.success_threshold ≤ st.success_count → st.half_open_calls = 0) →
      config.success_threshold ≤ st.success_count + n + 1 →
      ∃ evs : List Event, (run config st evs).state = .Closed
  | n, st, hs, h1, hbudget, hzero, hth => by
    have hroom : st.half_open_calls < config.half_open_max_calls :=
      halfopen_room config st h1 hs (fun _ => ⟨hbudget, hzero⟩)
    by_cases hclose : config.success_threshold ≤ st.success_count + 1
    · refine ⟨[(0, .ok ⟨⟩, 0)], ?_⟩
      rw [run, run, call_halfopen_under config st 0 _ 0 hs hroom]
      simp only [settle, on_success, hs]
      rw [if_pos (by simpa using hclose)]
      rfl
    · match n with
      | 0 => omega
      | m + 1 =>
        have hstep : (call (ε := Unit) (α := Unit) config st 0 (.ok ⟨⟩) 0).2.1 =
            { st with success_count := st.success_count + 1,
                      half_open_calls := st.half_open_calls + 1 } := by
          rw [call_halfopen_under config st 0 _ 0 hs hroom]
          simp only [settle, on_success, hs]
          rw [if_neg (by simpa using hclose)]
        obtain ⟨evs, hevs⟩ := halfopen_to_closed_fuel config m
          { st with success_count := st.success_count + 1,
                    half_open_calls := st.half_open_calls + 1 }
          hs h1 (by simp; omega) (by simp; omega) (by simp; omega)
        exact ⟨(0, .ok ⟨⟩, 0) :: evs, by rw [run, hstep]; exact hevs⟩

/-- From OPEN (for a policy allowing probes and with
`success_threshold ≤ half_open_max_calls`), waiting out the timeout and then
succeeding repeatedly reaches CLOSED. -/
theorem open_to_closed (config : CircuitBreakerConfig) (st : BreakerState)
    (h1 : 1 ≤ config.half_open_max_calls)
    (h2 : config.success_threshold ≤ config.half_open_max_calls)
    (hs : st.state = .Open) :
    ∃ evs : List Event, (run config st evs).state = .Closed := by
  set tR : ℚ := (match st.last_failure_time with
    | none => 0
    | some t => t + config.recovery_timeout) with htR
  have hres : should_attempt_reset config st tR = true := by
    unfold should_attempt_reset
    rcases hl : st.last_failure_time with - | t
    · rfl
    · simp only [Bool.or_eq_true, decide_eq_true_eq]
      right
      rw [htR, hl]
      simp
  have hcall := call_open_reset (ε := Unit) (α := Unit) config st tR (.ok ⟨⟩) tR hs hres
  have hgate : (call (ε := Unit) (α := Unit) config st tR (.ok ⟨⟩) tR).2.1 =
      on_success config
        { st with state := .HalfOpen, half_open_calls := 1 } := by
    rw [hcall]
    unfold half_open_gate
    rw [if_pos rfl, if_neg (by simp; omega)]
    rfl
  by_cases hclose : config.success_threshold ≤ st.success_count + 1
  · refine ⟨[(tR, .ok ⟨⟩, tR)], ?_⟩
    rw [run, run, hgate]
    simp only [on_success]
    rw [if_pos (by simpa using hclose)]
    rfl
  · have hstep : (call (ε := Unit) (α := Unit) config st tR (.ok ⟨⟩) tR).2.1 =
        { st with state := .HalfOpen, half_open_calls := 1,
                  success_count := st.success_count + 1 } := by
      rw [hgate]
      simp only [on_success]
      rw [if_neg (by simpa using hclose)]
    obtain ⟨evs, hevs⟩ := halfopen_to_closed_fuel config config.success_threshold
      { st with state := .HalfOpen, half_open_calls := 1,
                success_count := st.success_count + 1 }
      rfl h1 (by simp; omega) (by simp; omega) (by simp; omega)
    exact ⟨(tR, .ok ⟨⟩, tR) :: evs, by rw [run, hstep]; exact hevs⟩

/-- C8 (amended): for every policy that permits at least one half-open probe
and whose `success_threshold` does not exceed `half_open_max_calls` (true of
every policy this repository configures), no reachable breaker state is
terminal: from the state reached by any event sequence there is a
continuation reaching OPEN, a continuation reaching CLOSED (hence both are
re-enterable), and a continuation after which the coarse state differs —
in particular HALF_OPEN can always be exited. -/
theorem c8_no_terminal_state (config : CircuitBreakerConfig)
    (h1 : 1 ≤ config.half_open_max_calls)
    (h2 : config.success_threshold ≤ config.half_open_max_calls)
    (evs0 : List Event) :
    (∃ evs : List Event, (run config (run config init evs0) evs).state = .Open) ∧
    (∃ evs : List Event, (run config (run config init evs0) evs).state = .Closed) ∧
    (∃ evs : List Event,
      (run config (run config init evs0) evs).state ≠ (run config init evs0).state) := by
  obtain ⟨hf, hh⟩ :=
    inv_run config h2 evs0 init (fc_inv_init config) (ho_inv_init config)
  set st := run config init evs0 with hst
  have hopen : ∃ evs : List Event, (run config st evs).state = .Open := by
    rcases hcase : st.state with - | - | -
    · exact closed_to_open config st hcase
    · exact ⟨[], hcase⟩
    · exact halfopen_to_open config st h1 hcase hf hh
  have hclosed : ∃ evs : List Event, (run config st evs).state = .Closed := by
    rcases hcase : st.state with - | - | -
    · exact ⟨[], hcase⟩
    · exact open_to_closed config st h1 h2 hcase
    · obtain ⟨hbudget, hzero⟩ := hh hcase
      exact halfopen_to_closed_fuel config config.success_threshold st hcase h1
        hbudget hzero (by omega)
  refine ⟨hopen, hclosed, ?_⟩
  rcases hcase : st.state with - | - | -
  · obtain ⟨evs, hevs⟩ := hopen
    exact ⟨evs, by rw [hevs]; decide⟩
  · obtain ⟨evs, hevs⟩ := hclosed
    exact ⟨evs, by rw [hevs]; decide⟩
  · obtain ⟨evs, hevs⟩ := hopen
    exact ⟨evs, by rw [hevs]; decide⟩

/-- C8 witness: the default breaker policy `(5, 60, 3, 2)` after a short
prefix of two failures. -/
theorem c8_no_terminal_state_witness :
    (∃ evs : List Event,
      (run ⟨5, 60, 3, 2⟩ (run ⟨5, 60, 3, 2⟩ init [(0, .err ⟨⟩, 1), (1, .err ⟨⟩, 2)]) evs).state =
        .Open) ∧
    (∃ evs : List Event,
      (run ⟨5, 60, 3, 2⟩ (run ⟨5, 60, 3, 2⟩ init [(0, .err ⟨⟩, 1), (1, .err ⟨⟩, 2)]) evs).state =
        .Closed) ∧
    (∃ evs : List Event,
      (run ⟨5, 60, 3, 2⟩ (run ⟨5, 60, 3, 2⟩ init [(0, .err ⟨⟩, 1), (1, .err ⟨⟩, 2)]) evs).state ≠
        (run ⟨5, 60, 3, 2⟩ init [(0, .err ⟨⟩, 1), (1, .err ⟨⟩, 2)]).state) :=
  c8_no_terminal_state ⟨5, 60, 3, 2⟩ (by decide) (by decide) [(0, .err ⟨⟩, 1), (1, .err ⟨⟩, 2)]

/-- C8 (counterexample): under the policy `(failure_threshold 1,
recovery_timeout 0, half_open_max_calls 0, success_threshold 1)` — a policy
the spec's "under any policy" quantifies over — the state
`⟨HALF_OPEN, 1, 0, some 1, 0⟩` is reachable (one failure, then a call after
the timeout) and is terminal: every continuation leaves the breaker state
exactly as it is, because the half-open gate rejects every call before the
action can run. -/
theorem c8_terminal_halfopen_cex :
    run ⟨1, 0, 0, 1⟩ init [(0, .err ⟨⟩, 1), (1, .ok ⟨⟩, 1)] =
      ⟨.HalfOpen, 1, 0, some 1, 0⟩ ∧
    ∀ evs : List Event,
      run ⟨1, 0, 0, 1⟩ (⟨.HalfOpen, 1, 0, some 1, 0⟩ : BreakerState) evs =
        ⟨.HalfOpen, 1, 0, some 1, 0⟩ := by
  constructor
  · have e1 : (call (ε := Unit) (α := Unit) ⟨1, 0, 0, 1⟩ init 0 (.err ⟨⟩) 1).2.1 =
        ⟨.Open, 1, 0, some 1, 0⟩ := by
      rw [call_closed ⟨1, 0, 0, 1⟩ init 0 _ 1 rfl]
      simp +decide [settle, on_failure]
    have hres : should_attempt_reset ⟨1, 0, 0, 1⟩ ⟨.Open, 1, 0, some 1, 0⟩ 1 = true := by
      norm_num [should_attempt_reset]
    have e2 : (call (ε := Unit) (α := Unit) ⟨1, 0, 0, 1⟩ ⟨.Open, 1, 0, some 1, 0⟩
        1 (.ok ⟨⟩) 1).2.1 = ⟨.HalfOpen, 1, 0, some 1, 0⟩ := by
      rw [call_open_reset ⟨1, 0, 0, 1⟩ _ 1 _ 1 rfl hres]
      simp +decide [half_open_gate]
    simp only [run]
    rw [e1, e2]
  · intro evs
    induction evs with
    | nil => rfl
    | cons e rest ih =>
      rcases e with ⟨t1, oc, t2⟩
      rw [run, call_halfopen_gated ⟨1, 0, 0, 1⟩ _ t1 oc t2 rfl (by decide)]
      exact ih

end CircuitBreaker

/-! ### Cache theorems -/

namespace PerformanceCache

/-- C7 (counterexample): `set_api_response` accepts no per-entry TTL; TTL is
cache-wide and fixed at construction. Under the spec's per-entry reading,
`Set(key, value, ttl=1)` followed by `Get(key)` two seconds later misses;
the code's cache (constructed with the default `ttl=3600`) hits. -/
theorem c7_per_entry_ttl_cex :
    specCacheGet (specCacheSet (fun _ => none) "k" "v" 1 0) "k" 2 = none ∧
    (get_api_response (set_api_response (init 3600) "k" "v" 0) "k" 2).1 = some "v" := by
  constructor
  · norm_num [specCacheGet, specCacheSet]
  · norm_num [get_api_response, set_api_response, get_file, init,
      api_cache_key, upd, is_expired]

/-- C7 (amended): reads follow the two-tier protocol with freshness judged
against the single cache-wide `ttl` fixed at construction (fresh iff
`now − timestamp ≤ ttl`): a fresh memory hit is returned with no state
change; on a memory miss a fresh durable entry is promoted into the memory
tier and returned; an expired durable entry is deleted from disk and
reported as a miss; an expired memory entry is deleted and the lookup falls
through to the durable tier; and `set_api_response` writes the entry into
both tiers with `createdAt = now`. -/
theorem c7_two_tier_protocol :
    (∀ (cache : CacheState) (h : String) (now : ℚ) (e : CacheEntry),
      cache.memory_cache (api_cache_key h) = some e →
      is_expired cache e.timestamp now = false →
      get_api_response cache h now = (some e.data, cache)) ∧
    (∀ (cache : CacheState) (h : String) (now : ℚ) (e : CacheEntry),
      cache.memory_cache (api_cache_key h) = none →
      cache.file_cache (api_cache_key h) = some e →
      is_expired cache e.timestamp now = false →
      get_api_response cache h now =
        (some e.data,
         { cache with memory_cache := upd cache.memory_cache (api_cache_key h) (some e) })) ∧
    (∀ (cache : CacheState) (h : String) (now : ℚ) (e : CacheEntry),
      cache.memory_cache (api_cache_key h) = none →
      cache.file_cache (api_cache_key h) = some e →
      is_expired cache e.timestamp now = true →
      get_api_response cache h now =
        (none, { cache with file_cache := upd cache.file_cache (api_cache_key h) none })) ∧
    (∀ (cache : CacheState) (h : String) (now : ℚ) (e : CacheEntry),
      cache.memory_cache (api_cache_key h) = some e →
      is_expired cache e.timestamp now = true →
      get_api_response cache h now =
        get_file { cache with memory_cache := upd cache.memory_cache (api_cache_key h) none }
          (api_cache_key h) now) ∧
    (∀ (cache : CacheState) (h resp : String) (now : ℚ),
      (set_api_response cache h resp now).memory_cache (api_cache_key h) =
        some ⟨resp, now⟩ ∧
      (set_api_response cache h resp now).file_cache (api_cache_key h) =
        some ⟨resp, now⟩) := by
  refine ⟨?_, ?_, ?_, ?_, ?_⟩
  · intro cache h now e hmem hfresh
    simp [get_api_response, hmem, hfresh]
  · intro cache h now e hmem hfile hfresh
    simp [get_api_response, get_file, hmem, hfile, hfresh]
  · intro cache h now e hmem hfile hexp
    simp [get_api_response, get_file, hmem, hfile, hexp]
  · intro cache h now e hmem hexp
    simp only [get_api_response, hmem, hexp]
    rfl
  · intro cache h resp now
    constructor <;> simp [set_api_response, upd]

/-- C7 witness: each protocol clause at a concrete cache. -/
theorem c7_two_tier_protocol_witness :
    get_api_response
        ⟨3600, upd (fun _ => none) (api_cache_key "k") (some ⟨"v", 0⟩), fun _ => none⟩
        "k" 2 =
      (some "v",
       ⟨3600, upd (fun _ => none) (api_cache_key "k") (some ⟨"v", 0⟩), fun _ => none⟩) ∧
    get_api_response
        ⟨3600, fun _ => none, upd (fun _ => none) (api_cache_key "k") (some ⟨"v", 0⟩)⟩
        "k" 2 =
      (some "v",
       { (⟨3600, fun _ => none,
           upd (fun _ => none) (api_cache_key "k") (some ⟨"v", 0⟩)⟩ : CacheState) with
         memory_cache := upd (fun _ => none) (api_cache_key "k") (some ⟨"v", 0⟩) }) ∧
    get_api_response
        ⟨3600, fun _ => none, upd (fun _ => none) (api_cache_key "k") (some ⟨"v", 0⟩)⟩
        "k" 4000 =
      (none,
       { (⟨3600, fun _ => none,
           upd (fun _ => none) (api_cache_key "k") (some ⟨"v", 0⟩)⟩ : CacheState) with
         file_cache := upd (upd (fun _ => none) (api_cache_key "k") (some ⟨"v", 0⟩))
           (api_cache_key "k") none }) ∧
    (set_api_response (init 3600) "k" "v" 5).memory_cache (api_cache_key "k") =
      some ⟨"v", 5⟩ ∧
    (set_api_response (init 3600) "k" "v" 5).file_cache (api_cache_key "k") =
      some ⟨"v", 5⟩ := by
  refine ⟨?_, ?_, ?_, ?_⟩
  · exact c7_two_tier_protocol.1
      ⟨3600, upd (fun _ => none) (api_cache_key "k") (some ⟨"v", 0⟩), fun _ => none⟩
      "k" 2 ⟨"v", 0⟩ (by simp [upd]) (by norm_num [is_expired])
  · exact c7_two_tier_protocol.2.1
      ⟨3600, fun _ => none, upd (fun _ => none) (api_cache_key "k") (some ⟨"v", 0⟩)⟩
      "k" 2 ⟨"v", 0⟩ rfl (by simp [upd]) (by norm_num [is_expired])
  · exact c7_two_tier_protocol.2.2.1
      ⟨3600, fun _ => none, upd (fun _ => none) (api_cache_key "k") (some ⟨"v", 0⟩)⟩
      "k" 4000 ⟨"v", 0⟩ rfl (by simp [upd]) (by norm_num [is_expired])
  · exact c7_two_tier_protocol.2.2.2.2 (init 3600) "k" "v" 5

end PerformanceCache

/-! ### Gemini wrapper theorems -/

namespace GeminiClient

/-- C2 (counterexample): a rate-limit denial with a cache miss does not
raise — `generate_response` completes normally with the message string
(modelled as `GateResult.rate_limit_message`), a non-cached value. Minute
window full (`requests_per_minute = 1`, one request one second old), empty
cache. -/
theorem c2_denial_returns_message_cex :
    (rate_limit_gate ⟨1, 1000, 10, 60⟩ ⟨10, 0, [99], [99]⟩
        (PerformanceCache.init 3600) 100 "h" true).1 = .rate_limit_message 59 := by
  norm_num [rate_limit_gate, RateLimiter.is_allowed, RateLimiter.cleanup_old_requests,
    pyMin, PerformanceCache.get_api_response, PerformanceCache.get_file,
    PerformanceCache.init, PerformanceCache.api_cache_key]

/-- C2 (amended): on every rate-limit denial (caching enabled),
`generate_response` returns the cached value when the cache yields a
non-empty string for the request's key, and otherwise returns — not raises —
the rate-limit message string carrying `retry_after`; `RateLimitExceededError`
is raised only by the unused `rate_limited` decorator, never on this path. -/
theorem c2_denied_gate (config : RateLimitConfig) (rl : RateLimiterState)
    (cache : CacheState) (now : ℚ) (h : String)
    (reason : RateLimiter.DenyReason) (retry : ℚ)
    (hd : (RateLimiter.is_allowed config rl now 1).1 = .denied reason retry) :
    ((PerformanceCache.get_api_response cache h now).1 = none →
      (rate_limit_gate config rl cache now h true).1 = .rate_limit_message retry) ∧
    (∀ c : String, (PerformanceCache.get_api_response cache h now).1 = some c → c ≠ "" →
      (rate_limit_gate config rl cache now h true).1 = .cached_response c) ∧
    (∀ c : String, (PerformanceCache.get_api_response cache h now).1 = some c → c = "" →
      (rate_limit_gate config rl cache now h true).1 = .rate_limit_message retry) := by
  have heq : RateLimiter.is_allowed config rl now 1 =
      (.denied reason retry, (RateLimiter.is_allowed config rl now 1).2) := by
    rw [← hd]
  refine ⟨?_, ?_, ?_⟩
  · intro hnone
    unfold rate_limit_gate
    rw [heq]
    rcases hga : PerformanceCache.get_api_response cache h now with ⟨cc, cache2⟩
    rw [hga] at hnone
    simp only at hnone
    subst hnone
    rfl
  · intro c hsome hne
    unfold rate_limit_gate
    rw [heq]
    rcases hga : PerformanceCache.get_api_response cache h now with ⟨cc, cache2⟩
    rw [hga] at hsome
    simp only at hsome
    subst hsome
    simp only [if_true]
    rw [if_pos hne]
  · intro c hsome hemp
    unfold rate_limit_gate
    rw [heq]
    rcases hga : PerformanceCache.get_api_response cache h now with ⟨cc, cache2⟩
    rw [hga] at hsome
    simp only at hsome
    subst hsome
    simp only [if_true]
    rw [if_neg (by simpa using hemp)]

/-- C2 witness: the same denial as the counterexample, but with a cache that
holds a fresh entry for the key — the cached value comes back. -/
theorem c2_denied_gate_witness :
    (rate_limit_gate ⟨1, 1000, 10, 60⟩ ⟨10, 0, [99], [99]⟩
        (PerformanceCache.set_api_response (PerformanceCache.init 3600) "h" "resp" 50)
        100 "h" true).1 = .cached_response "resp" :=
  (c2_denied_gate ⟨1, 1000, 10, 60⟩ ⟨10, 0, [99], [99]⟩
      (PerformanceCache.set_api_response (PerformanceCache.init 3600) "h" "resp" 50)
      100 "h" .minute_limit 59
      (by norm_num [RateLimiter.is_allowed, RateLimiter.cleanup_old_requests, pyMin])).2.1
    "resp"
    (by norm_num [PerformanceCache.get_api_response, PerformanceCache.set_api_response,
      PerformanceCache.init, PerformanceCache.api_cache_key, PerformanceCache.upd,
      PerformanceCache.is_expired])
    (by decide)

/-- C3 (counterexample): `generate_response` does not surface the action's
error — its outer `except Exception` swallows it and returns the
error-message string as a normal result. -/
theorem c3_wrapper_swallows_cex :
    body_result (.raised "boom") none =
      .ok "Error: Unable to generate response - boom" ∧
    body_result (.raised "boom") none ≠ .error "boom" :=
  ⟨rfl, fun h => Except.noConfusion h⟩

/-- C3 (amended): the breaker itself never swallows — whenever the wrapped
action is invoked and raises, `CircuitBreaker.call` re-raises that same
exception after recording the failure (failure count incremented,
`lastFailureTime` set, circuit opened when the threshold is reached) — but
`generate_response` then catches the propagated error in its outer
`except Exception` and returns an error-message string instead of
re-raising it to its own caller. -/
theorem c3_error_propagation :
    (∀ (ε α : Type) (config : CircuitBreakerConfig) (st : BreakerState)
       (t1 : ℚ) (e : ε) (t2 : ℚ),
      (CircuitBreaker.call (α := α) config st t1 (.err e) t2).2.2 = true →
      (CircuitBreaker.call (α := α) config st t1 (.err e) t2).1 = .raised e ∧
      (CircuitBreaker.call (α := α) config st t1 (.err e) t2).2.1.failure_count =
        st.failure_count + 1 ∧
      (CircuitBreaker.call (α := α) config st t1 (.err e) t2).2.1.last_failure_time =
        some t2 ∧
      (config.failure_threshold ≤ st.failure_count + 1 →
        (CircuitBreaker.call (α := α) config st t1 (.err e) t2).2.1.state = .Open)) ∧
    (∀ (e : String) (fallback : Option String),
      body_result (.raised e) fallback =
        .ok ("Error: Unable to generate response - " ++ e)) := by
  constructor
  · intro ε α config st t1 e t2 hinv
    rcases st with ⟨s, fc, sc, lft, hoc⟩
    rcases s <;>
      simp only [CircuitBreaker.call, CircuitBreaker.half_open_gate,
        CircuitBreaker.settle, CircuitBreaker.on_failure] at hinv ⊢ <;>
      split_ifs at hinv ⊢ <;> simp_all
  · intro e fallback
    rfl

/-- C3 witness: a failing action under the `gemini_api` breaker policy from
a fresh breaker, then the wrapper's outer handler. -/
theorem c3_error_propagation_witness :
    ((CircuitBreaker.call (ε := String) (α := String) ⟨2, 120, 1, 1⟩
        CircuitBreaker.init 0 (.err "x") 3).1 = .raised "x" ∧
     (CircuitBreaker.call (ε := String) (α := String) ⟨2, 120, 1, 1⟩
        CircuitBreaker.init 0 (.err "x") 3).2.1.failure_count =
       CircuitBreaker.init.failure_count + 1 ∧
     (CircuitBreaker.call (ε := String) (α := String) ⟨2, 120, 1, 1⟩
        CircuitBreaker.init 0 (.err "x") 3).2.1.last_failure_time = some 3 ∧
     ((2:ℕ) ≤ CircuitBreaker.init.failure_count + 1 →
       (CircuitBreaker.call (ε := String) (α := String) ⟨2, 120, 1, 1⟩
          CircuitBreaker.init 0 (.err "x") 3).2.1.state = .Open)) ∧
    body_result (.raised "x") none =
      .ok ("Error: Unable to generate response - " ++ "x") :=
  ⟨c3_error_propagation.1 String String ⟨2, 120, 1, 1⟩ CircuitBreaker.init 0 "x" 3 rfl,
   c3_error_propagation.2 "x" none⟩

end GeminiClient

end ComplianceNav
